import Mathlib

/-!
Verification of the authentication token lifecycle of the repository
(apps/authentication/services.py) against its specification.

Shallow embedding notes:
- A JWT string is modelled by the inductive Token: either a well-formed
  signed token carrying its decoded claims together with a flag recording
  whether its signature verifies under the configured secret, or a
  malformed string (fewer than three segments / undecodable payload).
  JWT encoding with a fixed secret is deterministic and injective on the
  payload, so equality of Token values models equality of token strings.
- Timestamps are whole seconds (Nat), matching int(...timestamp()) in the
  source; pyjwt raises ExpiredSignatureError when exp is less than or equal to now.
- The three cache-key format strings used by the source, namely
  "refresh_token:" ++ id, "blacklist_token:" ++ jti and
  "password_reset:" ++ id, have pairwise distinct prefixes and injective
  suffixes, so the key space is modelled exactly by the inductive CacheKey.
- The Django cache is modelled as an association list with last-write-wins
  set/get/delete; TTL decay of the store is not modelled (no claim needs it)
  but the timeout argument passed to every set is recorded.
- Randomness (secrets.token_urlsafe) and the current time (datetime.utcnow)
  are threaded as explicit parameters.
- Functions that have ambient access to the Django cache receive it as an
  explicit parameter even when, like verify_token, they never read it:
  this is the state-passing translation of the ambient global.
-/

namespace DjangoNinjaAuth

/-- Decoded JWT claims, as produced by the payload dictionary built in
AuthService._generate_token. Fields that the source reads with
payload.get (user_id, token_type, exp, jti) are Options so that absent
claims are representable. -/
structure Claims where
  user_id : Option Int
  token_type : Option String
  exp : Option Nat
  iat : Nat
  jti : Option String
deriving DecidableEq

/-- A token string: a well-formed signed JWT (its claims plus whether the
signature verifies under the configured secret), or a malformed string. -/
inductive Token where
  | signed (payload : Claims) (sigValid : Bool)
  | malformed (raw : String)
deriving DecidableEq

/-- Failure modes of jwt.decode: DecodeError (malformed), InvalidSignatureError,
ExpiredSignatureError. -/
inductive DecodeError where
  | Malformed
  | BadSignature
  | Expired
deriving DecidableEq

/-- Result of jwt.decode. -/
inductive DecodeResult where
  | ok (payload : Claims)
  | err (e : DecodeError)
deriving DecidableEq

/-- jwt.decode(token, secret, algorithms): splits and parses the string
(DecodeError on malformed input), verifies the signature, then validates
the exp claim when present: expired iff exp is less than or equal to now. -/
def jwtDecode (t : Token) (now : Nat) : DecodeResult :=
  match t with
  | .malformed _ => .err .Malformed
  | .signed payload sigValid =>
    if sigValid then
      match payload.exp with
      | some e => if e ≤ now then .err .Expired else .ok payload
      | none => .ok payload
    else .err .BadSignature

/-- The cache-key namespace used by the source: the format strings
refresh_token:, blacklist_token: and password_reset: followed by the
subject id or the token unique id. The three patterns are disjoint and
injective as strings, so this inductive models them exactly. -/
inductive CacheKey where
  | refresh_token (subject_id : Int)
  | blacklist_token (jti : String)
  | password_reset (subject_id : Int)
deriving DecidableEq

/-- A cache value: a token string (refresh / reset records) or the boolean
marker True (blacklist entries). -/
inductive CacheVal where
  | tok (t : Token)
  | flag (b : Bool)
deriving DecidableEq

/-- A stored cache entry: the value together with the timeout (TTL in
seconds) that was passed to cache.set. -/
structure CacheEntry where
  val : CacheVal
  timeout : Int
deriving DecidableEq

/-- The Django cache, as an association list. -/
abbrev Cache := List (CacheKey × CacheEntry)

/-- cache.get: the value stored under a key, if any. -/
def cacheGet : Cache → CacheKey → Option CacheVal
  | [], _ => none
  | (k', e) :: rest, k => if k' = k then some e.val else cacheGet rest k

/-- cache.delete: removes any entry under the key (absence is not an error). -/
def cacheDelete : Cache → CacheKey → Cache
  | [], _ => []
  | (k', e) :: rest, k =>
    if k' = k then cacheDelete rest k else (k', e) :: cacheDelete rest k

/-- cache.set: stores a value with a timeout, overwriting any prior entry. -/
def cacheSet (c : Cache) (k : CacheKey) (v : CacheVal) (timeout : Int) : Cache :=
  (k, ⟨v, timeout⟩) :: cacheDelete c k

/-- A row of the user table, with the fields the token lifecycle reads:
id, username, password (credential), is_deleted, status. -/
structure UserRec where
  id : Int
  username : String
  password : String
  is_deleted : Bool
  status : String
deriving DecidableEq

/-- The user table. -/
abbrev UserDB := List UserRec

/-- User.objects.get(id=user_id, is_deleted=False, status=active):
the lookup used by verify_token and refresh_access_token. -/
def getActiveUser : UserDB → Int → Option UserRec
  | [], _ => none
  | u :: rest, uid =>
    if u.id = uid ∧ u.is_deleted = false ∧ u.status = "active" then some u
    else getActiveUser rest uid

/-- User.objects.get(id=user_id, is_deleted=False): the lookup used by
verify_password_reset_token (no status filter). -/
def getAnyUser : UserDB → Int → Option UserRec
  | [], _ => none
  | u :: rest, uid =>
    if u.id = uid ∧ u.is_deleted = false then some u
    else getAnyUser rest uid

/-- Lookup of a user row by primary key (no filters). -/
def findById : UserDB → Int → Option UserRec
  | [], _ => none
  | u :: rest, uid => if u.id = uid then some u else findById rest uid

/-- Modelled from the spec: the Subject Resolver's update_credential
operation (section 4.3, an external collaborator in the source:
user.set_password followed by user.save(update_fields=[password])).
Stores the new credential on the row with the given id. -/
def set_password : UserDB → Int → String → UserDB
  | [], _, _ => []
  | u :: rest, uid, pw =>
    (if u.id = uid then { u with password := pw } else u) :: set_password rest uid pw

/-- Modelled from the spec: the external credential check (section 4.3);
true iff the row with the given id holds exactly this credential. -/
def check_password (db : UserDB) (uid : Int) (pw : String) : Bool :=
  match findById db uid with
  | some u => u.password = pw
  | none => false

/-- Configuration values read from Django settings. -/
structure Settings where
  JWT_EXPIRATION_HOURS : Nat
  JWT_REFRESH_EXPIRATION_DAYS : Nat
deriving DecidableEq

/-- AuthService.ACCESS_TOKEN_TYPE. -/
def ACCESS_TOKEN_TYPE : String := "access"

/-- AuthService.REFRESH_TOKEN_TYPE. -/
def REFRESH_TOKEN_TYPE : String := "refresh"

/-- AuthService._generate_token: builds the payload with user_id,
token_type, exp = int((now + expires_delta).timestamp()),
iat = int(now.timestamp()), a fresh jti, and signs it with the configured
secret (so the signature is valid). expires_delta is in seconds. -/
def generate_token (user_id : Int) (token_type : String) (expires_delta : Nat)
    (now : Nat) (jti : String) : Token :=
  .signed
    { user_id := some user_id
      token_type := some token_type
      exp := some (now + expires_delta)
      iat := now
      jti := some jti } true

/-- The dictionary returned by AuthService.generate_tokens. -/
structure TokenPair where
  access_token : Token
  refresh_token : Token
  token_type : String
  expires_in : Nat
  user_id : Int
deriving DecidableEq

/-- AuthService.generate_tokens: mints an access token
(TTL = JWT_EXPIRATION_HOURS hours) and a refresh token
(TTL = JWT_REFRESH_EXPIRATION_DAYS days), stores the refresh token under
the refresh_token: key for the user, and returns both. -/
def generate_tokens (s : Settings) (user : UserRec) (c : Cache) (now : Nat)
    (jtiAccess jtiRefresh : String) : TokenPair × Cache :=
  let access_token :=
    generate_token user.id ACCESS_TOKEN_TYPE (s.JWT_EXPIRATION_HOURS * 3600) now jtiAccess
  let refresh_token :=
    generate_token user.id REFRESH_TOKEN_TYPE (s.JWT_REFRESH_EXPIRATION_DAYS * 86400) now jtiRefresh
  let c' := cacheSet c (.refresh_token user.id) (.tok refresh_token)
    (Int.ofNat (s.JWT_REFRESH_EXPIRATION_DAYS * 24 * 3600))
  ({ access_token := access_token
     refresh_token := refresh_token
     token_type := "Bearer"
     expires_in := s.JWT_EXPIRATION_HOURS * 3600
     user_id := user.id }, c')

/-- AuthService.verify_token: decodes the token (any decode failure gives
None), rejects it unless token_type is access, rejects a falsy user_id
(absent, null, or 0), then requires an existing, non-deleted, active user.
The source never reads the cache here; the parameter is the threaded
ambient store. -/
def verify_token (db : UserDB) (_c : Cache) (token : Token) (now : Nat) : Option Int :=
  match jwtDecode token now with
  | .err _ => none
  | .ok payload =>
    if payload.token_type ≠ some ACCESS_TOKEN_TYPE then none
    else
      match payload.user_id with
      | none => none
      | some user_id =>
        if user_id = 0 then none
        else
          match getActiveUser db user_id with
          | some _ => some user_id
          | none => none

/-- The dictionary returned by AuthService.refresh_access_token. -/
structure RefreshResult where
  access_token : Token
  token_type : String
  expires_in : Nat
deriving DecidableEq

/-- AuthService.refresh_access_token: decodes the presented refresh token,
requires token_type refresh, a truthy user_id, an existing active user,
and that the cached value under the refresh_token: key exists and equals
the presented token; then mints a new access token. Returns None and
leaves the cache untouched on every failure; a falsy cached value or a
cached value of a different shape fails the check, exactly as the source
comparison does. -/
def refresh_access_token (s : Settings) (db : UserDB) (c : Cache)
    (refresh_tok : Token) (now : Nat) (newJti : String) :
    Option RefreshResult × Cache :=
  match jwtDecode refresh_tok now with
  | .err _ => (none, c)
  | .ok payload =>
    if payload.token_type ≠ some REFRESH_TOKEN_TYPE then (none, c)
    else
      match payload.user_id with
      | none => (none, c)
      | some user_id =>
        if user_id = 0 then (none, c)
        else
          match getActiveUser db user_id with
          | none => (none, c)
          | some _ =>
            match cacheGet c (.refresh_token user_id) with
            | some (.tok cached_token) =>
              if cached_token = refresh_tok then
                (some { access_token :=
                          generate_token user_id ACCESS_TOKEN_TYPE
                            (s.JWT_EXPIRATION_HOURS * 3600) now newJti
                        token_type := "Bearer"
                        expires_in := s.JWT_EXPIRATION_HOURS * 3600 }, c)
              else (none, c)
            | _ => (none, c)

/-- AuthService.logout_user: deletes the refresh_token: record for the
subject, then, if a refresh token was supplied, best-effort decodes it
(any failure is swallowed); when decodable with a truthy jti and a
positive remaining lifetime (exp minus now, exp defaulting to 0), inserts
a blacklist entry with that TTL. Always returns True. -/
def logout_user (c : Cache) (user_id : Int) (refresh_tok : Option Token)
    (now : Nat) : Bool × Cache :=
  let c1 := cacheDelete c (.refresh_token user_id)
  match refresh_tok with
  | none => (true, c1)
  | some t =>
    match jwtDecode t now with
    | .err _ => (true, c1)
    | .ok payload =>
      match payload.jti with
      | none => (true, c1)
      | some jti =>
        if jti = "" then (true, c1)
        else
          let expire_time : Int := (payload.exp.getD 0 : Int) - (now : Int)
          if 0 < expire_time then
            (true, cacheSet c1 (.blacklist_token jti) (.flag true) expire_time)
          else (true, c1)

/-- Python str.split with a one-character separator: splits the string at
every occurrence of the separator; the empty string yields one (empty)
part. Defined over the character list by structural recursion. -/
def splitOnChar (sep : Char) : List Char → List (List Char)
  | [] => [[]]
  | ch :: rest =>
    if ch = sep then [] :: splitOnChar sep rest
    else
      match splitOnChar sep rest with
      | [] => [[ch]]
      | p :: ps => (ch :: p) :: ps

/-- AuthService.validate_token_format: rejects a falsy (empty) string, then
requires the string to split on the dot character into exactly 3 parts. -/
def validate_token_format (token : String) : Bool :=
  if token = "" then false
  else if (splitOnChar '.' token.data).length ≠ 3 then false
  else true

/-- AuthService.generate_password_reset_token: mints a reset-kind token
with a fixed 12-hour TTL and stores it under the password_reset: key. -/
def generate_password_reset_token (user : UserRec) (c : Cache) (now : Nat)
    (jti : String) : Token × Cache :=
  let reset_token := generate_token user.id "reset" (12 * 3600) now jti
  (reset_token, cacheSet c (.password_reset user.id) (.tok reset_token)
    (Int.ofNat (12 * 3600)))

/-- AuthService.verify_password_reset_token: decodes, requires token_type
reset and a truthy user_id, then requires an existing, non-deleted user
(no status filter). Never reads the cache: the stored Password-Reset
Record is not consulted. -/
def verify_password_reset_token (db : UserDB) (_c : Cache) (token : Token)
    (now : Nat) : Option UserRec :=
  match jwtDecode token now with
  | .err _ => none
  | .ok payload =>
    if payload.token_type ≠ some "reset" then none
    else
      match payload.user_id with
      | none => none
      | some user_id =>
        if user_id = 0 then none
        else getAnyUser db user_id

/-- AuthService.reset_user_password: verifies the reset token, and on
success updates the credential and deletes the password_reset: record;
returns False without side effects on verification failure. -/
def reset_user_password (db : UserDB) (c : Cache) (token : Token)
    (new_password : String) (now : Nat) : Bool × UserDB × Cache :=
  match verify_password_reset_token db c token now with
  | none => (false, db, c)
  | some user =>
    (true, set_password db user.id new_password,
      cacheDelete c (.password_reset user.id))

/-! Helper lemmas about the cache and the user table. -/

lemma cacheGet_cacheDelete_self (c : Cache) (k : CacheKey) :
    cacheGet (cacheDelete c k) k = none := by
  induction c with
  | nil => rfl
  | cons p rest ih =>
    obtain ⟨k', e⟩ := p
    by_cases h : k' = k
    · simpa [cacheDelete, h] using ih
    · simpa [cacheDelete, cacheGet, h] using ih

lemma cacheGet_cacheDelete_ne (c : Cache) (k k' : CacheKey) (h : k' ≠ k) :
    cacheGet (cacheDelete c k) k' = cacheGet c k' := by
  induction c with
  | nil => rfl
  | cons p rest ih =>
    obtain ⟨k₀, e⟩ := p
    have hkk' : k ≠ k' := fun hh => h hh.symm
    by_cases h0 : k₀ = k
    · simp [cacheDelete, cacheGet, h0, hkk', ih]
    · by_cases h1 : k₀ = k'
      · simp [cacheDelete, cacheGet, h0, h1, h]
      · simp [cacheDelete, cacheGet, h0, h1, ih]

lemma cacheGet_cacheSet_self (c : Cache) (k : CacheKey) (v : CacheVal) (t : Int) :
    cacheGet (cacheSet c k v t) k = some v := by
  simp [cacheSet, cacheGet]

lemma cacheGet_cacheSet_ne (c : Cache) (k k' : CacheKey) (v : CacheVal) (t : Int)
    (h : k' ≠ k) :
    cacheGet (cacheSet c k v t) k' = cacheGet c k' := by
  have hk : k ≠ k' := fun hh => h hh.symm
  simp [cacheSet, cacheGet, hk, cacheGet_cacheDelete_ne c k k' h]

lemma findById_set_password (db : UserDB) (i : Int) (pw : String) :
    findById (set_password db i pw) i =
      (findById db i).map (fun u => { u with password := pw }) := by
  induction db with
  | nil => rfl
  | cons u rest ih =>
    by_cases h : u.id = i
    · simp [set_password, findById, h]
    · simp [set_password, findById, h, ih]

lemma getAnyUser_set_password (db : UserDB) (i : Int) (pw : String) :
    getAnyUser (set_password db i pw) i =
      (getAnyUser db i).map (fun u => { u with password := pw }) := by
  induction db with
  | nil => rfl
  | cons u rest ih =>
    by_cases h : u.id = i
    · by_cases hd : u.is_deleted = false
      · simp [set_password, getAnyUser, h, hd]
      · simp [set_password, getAnyUser, h, hd, ih]
    · simp [set_password, getAnyUser, h, ih]

lemma generate_token_ne_of_jti_ne (u1 u2 : Int) (ty1 ty2 : String)
    (d1 d2 n1 n2 : Nat) (j1 j2 : String) (h : j1 ≠ j2) :
    generate_token u1 ty1 d1 n1 j1 ≠ generate_token u2 ty2 d2 n2 j2 := by
  intro heq
  simp only [generate_token, Token.signed.injEq, Claims.mk.injEq,
    Option.some.injEq] at heq
  exact h heq.1.2.2.2.2

lemma jwtDecode_ok_eq {cl p : Claims} {b : Bool} {now : Nat}
    (h : jwtDecode (.signed cl b) now = .ok p) : p = cl := by
  cases b with
  | false => simp [jwtDecode] at h
  | true =>
    cases hexp : cl.exp with
    | none =>
      simp [jwtDecode, hexp] at h
      exact h.symm
    | some e =>
      by_cases hle : e ≤ now
      · simp [jwtDecode, hexp, hle] at h
      · simp [jwtDecode, hexp, hle] at h
        exact h.symm

/-- Claim C4: token kind is checked on every verification: a signed,
signature-valid token whose kind is refresh fails verify_token, and a
signed, signature-valid token whose kind is anything other than refresh
fails refresh_access_token. -/
theorem token_kind_checked (s : Settings) (db : UserDB) (c : Cache) (cl : Claims)
    (now : Nat) (j : String) :
    (cl.token_type = some REFRESH_TOKEN_TYPE →
      verify_token db c (.signed cl true) now = none)
    ∧ (cl.token_type ≠ some REFRESH_TOKEN_TYPE →
      (refresh_access_token s db c (.signed cl true) now j).1 = none) := by
  constructor
  · intro hk
    unfold verify_token
    cases hd : jwtDecode (.signed cl true) now with
    | err e => rfl
    | ok p =>
      have hp := jwtDecode_ok_eq hd
      subst hp
      have ht : p.token_type ≠ some ACCESS_TOKEN_TYPE := by
        rw [hk]
        simp [REFRESH_TOKEN_TYPE, ACCESS_TOKEN_TYPE]
      simp [ht]
  · intro hk
    unfold refresh_access_token
    cases hd : jwtDecode (.signed cl true) now with
    | err e => simp
    | ok p =>
      have hp := jwtDecode_ok_eq hd
      subst hp
      simp [hk]

/-- Claim C5: timestamps are whole seconds (Nat in this model) and a signed
token is Expired exactly when now is at or past expires_at; a token issued
with ttl 0 fails decode and verify_token with Expired immediately, while a
token whose expiry is strictly in the future passes the expiry check. -/
theorem expiry_boundary (cl : Claims) (e now : Nat) (db : UserDB) (c : Cache)
    (uid : Int) (j : String) :
    (cl.exp = some e → (jwtDecode (.signed cl true) now = .err .Expired ↔ e ≤ now))
    ∧ (cl.exp = some e → now < e → jwtDecode (.signed cl true) now = .ok cl)
    ∧ jwtDecode (generate_token uid ACCESS_TOKEN_TYPE 0 now j) now = .err .Expired
    ∧ verify_token db c (generate_token uid ACCESS_TOKEN_TYPE 0 now j) now = none := by
  refine ⟨?_, ?_, ?_, ?_⟩
  · intro hexp
    constructor
    · intro hdec
      by_contra hle
      simp [jwtDecode, hexp, hle] at hdec
    · intro hle
      simp [jwtDecode, hexp, hle]
  · intro hexp hlt
    have hle : ¬ e ≤ now := Nat.not_le.mpr hlt
    simp [jwtDecode, hexp, hle]
  · simp [jwtDecode, generate_token]
  · simp [verify_token, jwtDecode, generate_token]

/-- Claim C8: refresh never writes to the store: the cache component of the
result of refresh_access_token equals the input cache on every input. -/
theorem refresh_is_store_write_free (s : Settings) (db : UserDB) (c : Cache)
    (t : Token) (now : Nat) (j : String) :
    (refresh_access_token s db c t now j).2 = c := by
  unfold refresh_access_token
  repeat' split
  all_goals rfl

/-- Claim C9: decode is total on malformed input: format validation accepts
a string exactly when it splits on the dot character into exactly three
parts, and decoding a malformed string (such as not.a.token, which has a
non-base64 payload) yields the Malformed failure value, never an unhandled
fault; verify_token maps it to None. -/
theorem decode_total_on_malformed :
    (∀ s : String,
      (validate_token_format s = true ↔ (splitOnChar '.' s.data).length = 3))
    ∧ (∀ (s : String) (now : Nat), jwtDecode (.malformed s) now = .err .Malformed)
    ∧ (∀ (db : UserDB) (c : Cache) (s : String) (now : Nat),
        verify_token db c (.malformed s) now = none) := by
  refine ⟨?_, fun s now => rfl, fun db c s now => rfl⟩
  intro s
  by_cases h : s = ""
  · subst h
    decide
  · by_cases hl : (splitOnChar '.' s.data).length = 3
    · simp [validate_token_format, h, hl]
    · simp [validate_token_format, h, hl]

/-- Claim C10: a falsy user_id claim (absent, null, or the integer 0) fails
every verification operation, even on a signature-valid token: the user_id
claim is tested for truthiness, not presence. -/
theorem falsy_user_id_never_authenticates (s : Settings) (db : UserDB)
    (c : Cache) (cl : Claims) (now : Nat) (j : String)
    (h : cl.user_id = none ∨ cl.user_id = some 0) :
    verify_token db c (.signed cl true) now = none
    ∧ (refresh_access_token s db c (.signed cl true) now j).1 = none
    ∧ verify_password_reset_token db c (.signed cl true) now = none := by
  refine ⟨?_, ?_, ?_⟩
  · unfold verify_token
    cases hd : jwtDecode (.signed cl true) now with
    | err e => rfl
    | ok p =>
      have hp := jwtDecode_ok_eq hd
      subst hp
      by_cases ht : p.token_type = some ACCESS_TOKEN_TYPE <;>
        rcases h with h | h <;> simp [ht, h]
  · unfold refresh_access_token
    cases hd : jwtDecode (.signed cl true) now with
    | err e => simp
    | ok p =>
      have hp := jwtDecode_ok_eq hd
      subst hp
      by_cases ht : p.token_type = some REFRESH_TOKEN_TYPE <;>
        rcases h with h | h <;> simp [ht, h]
  · unfold verify_password_reset_token
    cases hd : jwtDecode (.signed cl true) now with
    | err e => rfl
    | ok p =>
      have hp := jwtDecode_ok_eq hd
      subst hp
      by_cases ht : p.token_type = some "reset" <;>
        rcases h with h | h <;> simp [ht, h]

/-- Claim C6: logout always succeeds: it reports True on every input,
leaves no Stored Refresh Record for the subject (idempotently), swallows
any decode failure of the supplied token (the cache then only has the
refresh record deleted), and skips blacklist insertion when the decoded
token's remaining lifetime is non-positive. -/
theorem logout_always_succeeds (c : Cache) (uid : Int) (rt : Option Token)
    (t : Token) (now : Nat) :
    (logout_user c uid rt now).1 = true
    ∧ cacheGet (logout_user c uid rt now).2 (.refresh_token uid) = none
    ∧ (∀ e, jwtDecode t now = .err e →
        logout_user c uid (some t) now = (true, cacheDelete c (.refresh_token uid)))
    ∧ (∀ p, jwtDecode t now = .ok p →
        (p.exp.getD 0 : Int) - (now : Int) ≤ 0 →
        logout_user c uid (some t) now = (true, cacheDelete c (.refresh_token uid))) := by
  refine ⟨?_, ?_, ?_, ?_⟩
  · simp only [logout_user]
    repeat' split
    all_goals rfl
  · simp only [logout_user]
    repeat' split
    all_goals
      first
      | exact cacheGet_cacheDelete_self c _
      | · rw [cacheGet_cacheSet_ne]
          · exact cacheGet_cacheDelete_self c _
          · intro hh
            exact CacheKey.noConfusion hh
  · intro e he
    simp only [logout_user, he]
  · intro p hp hle
    have hnl : ¬ (0 : Int) < (p.exp.getD 0 : Int) - (now : Int) :=
      not_lt.mpr hle
    simp only [logout_user, hp]
    cases hjti : p.jti with
    | none => rfl
    | some jti =>
      by_cases hj : jti = ""
      · simp [hj]
      · have hnn : ¬ now < p.exp.getD 0 := by omega
        simp [hj, hnl, hnn]

/-- Claim C7: blacklist noninterference: for any two cache states that
agree on every key that is not a blacklist_token: key, verify_token and
refresh_access_token return the same result on every input token — no
verification path reads the blacklist. -/
theorem blacklist_noninterference (s : Settings) (db : UserDB) (t : Token)
    (now : Nat) (j : String) (c1 c2 : Cache)
    (h : ∀ k : CacheKey, (∀ jti, k ≠ CacheKey.blacklist_token jti) →
      cacheGet c1 k = cacheGet c2 k) :
    verify_token db c1 t now = verify_token db c2 t now
    ∧ (refresh_access_token s db c1 t now j).1 =
        (refresh_access_token s db c2 t now j).1 := by
  constructor
  · rfl
  · unfold refresh_access_token
    cases hd : jwtDecode t now with
    | err e => rfl
    | ok p =>
      by_cases ht : p.token_type = some REFRESH_TOKEN_TYPE
      · cases hu : p.user_id with
        | none => simp [ht, hu]
        | some uid =>
          by_cases h0 : uid = 0
          · simp [ht, hu, h0]
          · cases ha : getActiveUser db uid with
            | none => simp [ht, hu, h0, ha]
            | some u =>
              have hk := h (CacheKey.refresh_token uid)
                (fun jti hh => CacheKey.noConfusion hh)
              simp only [ht, hu, h0, ha, hk, ne_eq, not_true_eq_false,
                if_false, ite_false]
              cases cacheGet c2 (CacheKey.refresh_token uid) with
              | none => rfl
              | some v =>
                cases v with
                | flag b => rfl
                | tok ct =>
                  by_cases hc : ct = t
                  · simp [hc]
                  · simp [hc]
      · simp [ht]

lemma jwtDecode_generate_token (uid : Int) (ty : String) (d now now' : Nat)
    (j : String) (h : ¬ (now + d ≤ now')) :
    jwtDecode (generate_token uid ty d now j) now' =
      .ok { user_id := some uid, token_type := some ty, exp := some (now + d),
            iat := now, jti := some j } := by
  simp [jwtDecode, generate_token, h]

lemma generate_tokens_access (s : Settings) (u : UserRec) (c : Cache)
    (now : Nat) (jA jR : String) :
    (generate_tokens s u c now jA jR).1.access_token =
      generate_token u.id ACCESS_TOKEN_TYPE (s.JWT_EXPIRATION_HOURS * 3600) now jA := rfl

lemma generate_tokens_refresh (s : Settings) (u : UserRec) (c : Cache)
    (now : Nat) (jA jR : String) :
    (generate_tokens s u c now jA jR).1.refresh_token =
      generate_token u.id REFRESH_TOKEN_TYPE
        (s.JWT_REFRESH_EXPIRATION_DAYS * 86400) now jR := rfl

lemma generate_tokens_cache (s : Settings) (u : UserRec) (c : Cache)
    (now : Nat) (jA jR : String) :
    (generate_tokens s u c now jA jR).2 =
      cacheSet c (.refresh_token u.id)
        (.tok (generate_token u.id REFRESH_TOKEN_TYPE
          (s.JWT_REFRESH_EXPIRATION_DAYS * 86400) now jR))
        (Int.ofNat (s.JWT_REFRESH_EXPIRATION_DAYS * 24 * 3600)) := rfl

lemma getAnyUser_of_findById (db : UserDB) (uid : Int) (u : UserRec)
    (h : findById db uid = some u) (hdel : u.is_deleted = false) :
    getAnyUser db uid = some u := by
  induction db with
  | nil => simp [findById] at h
  | cons v rest ih =>
    by_cases hv : v.id = uid
    · simp [findById, hv] at h
      subst h
      simp [getAnyUser, hv, hdel]
    · simp [findById, hv] at h
      simp [getAnyUser, hv, ih h]

/-- Claim C2: only the most recently issued refresh token is honored:
after two issues for the same active subject, the stored slot holds the
second refresh token, the two refresh tokens differ, refreshing with the
first fails (the stored value no longer matches it) and refreshing with
the second succeeds. -/
theorem only_latest_refresh_honored (s : Settings) (db : UserDB) (c : Cache)
    (u : UserRec) (now1 now2 nowR : Nat) (jA1 jR1 jA2 jR2 jNew : String)
    (hu : getActiveUser db u.id = some u)
    (hid : u.id ≠ 0)
    (hne : jR1 ≠ jR2)
    (hlive1 : nowR < now1 + s.JWT_REFRESH_EXPIRATION_DAYS * 86400)
    (hlive2 : nowR < now2 + s.JWT_REFRESH_EXPIRATION_DAYS * 86400) :
    cacheGet (generate_tokens s u (generate_tokens s u c now1 jA1 jR1).2 now2 jA2 jR2).2
        (.refresh_token u.id) =
      some (.tok (generate_tokens s u (generate_tokens s u c now1 jA1 jR1).2
        now2 jA2 jR2).1.refresh_token)
    ∧ (generate_tokens s u c now1 jA1 jR1).1.refresh_token ≠
        (generate_tokens s u (generate_tokens s u c now1 jA1 jR1).2
          now2 jA2 jR2).1.refresh_token
    ∧ (refresh_access_token s db
        (generate_tokens s u (generate_tokens s u c now1 jA1 jR1).2 now2 jA2 jR2).2
        (generate_tokens s u c now1 jA1 jR1).1.refresh_token nowR jNew).1 = none
    ∧ ((refresh_access_token s db
        (generate_tokens s u (generate_tokens s u c now1 jA1 jR1).2 now2 jA2 jR2).2
        (generate_tokens s u (generate_tokens s u c now1 jA1 jR1).2
          now2 jA2 jR2).1.refresh_token nowR jNew).1).isSome = true := by
  have hexp1 : ¬ (now1 + s.JWT_REFRESH_EXPIRATION_DAYS * 86400 ≤ nowR) := by omega
  have hexp2 : ¬ (now2 + s.JWT_REFRESH_EXPIRATION_DAYS * 86400 ≤ nowR) := by omega
  have hRne : generate_token u.id REFRESH_TOKEN_TYPE
      (s.JWT_REFRESH_EXPIRATION_DAYS * 86400) now2 jR2 ≠
        generate_token u.id REFRESH_TOKEN_TYPE
          (s.JWT_REFRESH_EXPIRATION_DAYS * 86400) now1 jR1 :=
    generate_token_ne_of_jti_ne _ _ _ _ _ _ _ _ _ _ (Ne.symm hne)
  refine ⟨?_, ?_, ?_, ?_⟩
  · rw [generate_tokens_cache, generate_tokens_refresh]
    exact cacheGet_cacheSet_self _ _ _ _
  · rw [generate_tokens_refresh, generate_tokens_refresh]
    exact Ne.symm hRne
  · rw [generate_tokens_refresh, generate_tokens_cache]
    unfold refresh_access_token
    rw [jwtDecode_generate_token _ _ _ _ _ _ hexp1]
    simp [hid, hu, cacheGet_cacheSet_self, hRne]
  · rw [generate_tokens_refresh, generate_tokens_cache, generate_tokens_cache]
    unfold refresh_access_token
    rw [jwtDecode_generate_token _ _ _ _ _ _ hexp2]
    simp [hid, hu, cacheGet_cacheSet_self]

/-- Claim C3: issue/verify round-trip: for an existing, non-deleted,
active-status subject (with a truthy id, as Django autofield ids are),
verify_token on the freshly issued access token returns the subject id;
and at the codec level, decoding a token encoded with subject id 42, kind
access and ttl 3600 yields claims with user_id 42 and kind access. -/
theorem issue_verify_roundtrip (s : Settings) (db : UserDB) (c cAny : Cache)
    (u : UserRec) (now : Nat) (jA jR jC : String)
    (hu : getActiveUser db u.id = some u)
    (hid : u.id ≠ 0)
    (hpos : 0 < s.JWT_EXPIRATION_HOURS) :
    verify_token db cAny (generate_tokens s u c now jA jR).1.access_token now =
      some u.id
    ∧ jwtDecode (generate_token 42 ACCESS_TOKEN_TYPE 3600 now jC) now =
        .ok { user_id := some 42, token_type := some ACCESS_TOKEN_TYPE,
              exp := some (now + 3600), iat := now, jti := some jC } := by
  constructor
  · have hexp : ¬ (now + s.JWT_EXPIRATION_HOURS * 3600 ≤ now) := by
      have h1 : 0 < s.JWT_EXPIRATION_HOURS := hpos
      omega
    rw [generate_tokens_access]
    unfold verify_token
    rw [jwtDecode_generate_token _ _ _ _ _ _ hexp]
    simp [hid, hu]
  · have hexp : ¬ (now + 3600 ≤ now) := by omega
    exact jwtDecode_generate_token _ _ _ _ _ _ hexp

lemma generate_password_reset_token_fst (u : UserRec) (c : Cache) (now : Nat)
    (j : String) :
    (generate_password_reset_token u c now j).1 =
      generate_token u.id "reset" (12 * 3600) now j := rfl

lemma generate_password_reset_token_snd (u : UserRec) (c : Cache) (now : Nat)
    (j : String) :
    (generate_password_reset_token u c now j).2 =
      cacheSet c (.password_reset u.id)
        (.tok (generate_token u.id "reset" (12 * 3600) now j))
        (Int.ofNat (12 * 3600)) := rfl

lemma verify_password_reset_token_generate (db : UserDB) (cAny : Cache)
    (u : UserRec) (now : Nat) (j : String)
    (hany : getAnyUser db u.id = some u) (hid : u.id ≠ 0) :
    verify_password_reset_token db cAny
      (generate_token u.id "reset" (12 * 3600) now j) now = some u := by
  have hexp : ¬ (now + 12 * 3600 ≤ now) := by omega
  unfold verify_password_reset_token
  rw [jwtDecode_generate_token _ _ _ _ _ _ hexp]
  simp [hid, hany]

/-- Claim C1 (amended): consuming a freshly generated password-reset token
succeeds, updates the credential and deletes the Password-Reset Record;
but the token is not single-use: a second consumption of the same token
within its validity window succeeds again, because
verify_password_reset_token trusts the signature alone and never consults
the Password-Reset Record. -/
theorem password_reset_consume_not_single_use (db : UserDB) (c : Cache)
    (u : UserRec) (now : Nat) (j pw1 pw2 : String)
    (hfind : findById db u.id = some u)
    (hdel : u.is_deleted = false)
    (hid : u.id ≠ 0) :
    (reset_user_password db (generate_password_reset_token u c now j).2
        (generate_password_reset_token u c now j).1 pw1 now).1 = true
    ∧ check_password (reset_user_password db
        (generate_password_reset_token u c now j).2
        (generate_password_reset_token u c now j).1 pw1 now).2.1 u.id pw1 = true
    ∧ cacheGet (reset_user_password db
        (generate_password_reset_token u c now j).2
        (generate_password_reset_token u c now j).1 pw1 now).2.2
        (.password_reset u.id) = none
    ∧ (reset_user_password
        (reset_user_password db (generate_password_reset_token u c now j).2
          (generate_password_reset_token u c now j).1 pw1 now).2.1
        (reset_user_password db (generate_password_reset_token u c now j).2
          (generate_password_reset_token u c now j).1 pw1 now).2.2
        (generate_password_reset_token u c now j).1 pw2 now).1 = true := by
  have hany : getAnyUser db u.id = some u := getAnyUser_of_findById db u.id u hfind hdel
  have hv1 : verify_password_reset_token db
      (generate_password_reset_token u c now j).2
      (generate_password_reset_token u c now j).1 now = some u := by
    rw [generate_password_reset_token_fst]
    exact verify_password_reset_token_generate _ _ _ _ _ hany hid
  have hstep1 : reset_user_password db (generate_password_reset_token u c now j).2
      (generate_password_reset_token u c now j).1 pw1 now =
      (true, set_password db u.id pw1,
        cacheDelete (generate_password_reset_token u c now j).2
          (.password_reset u.id)) := by
    unfold reset_user_password
    rw [hv1]
  have hfind1 : findById (set_password db u.id pw1) u.id =
      some { u with password := pw1 } := by
    rw [findById_set_password, hfind]
    rfl
  have hany1 : getAnyUser (set_password db u.id pw1) u.id =
      some { u with password := pw1 } :=
    getAnyUser_of_findById _ _ _ hfind1 hdel
  have hv2 : verify_password_reset_token (set_password db u.id pw1)
      (cacheDelete (generate_password_reset_token u c now j).2
        (.password_reset u.id))
      (generate_password_reset_token u c now j).1 now =
      some { u with password := pw1 } := by
    rw [generate_password_reset_token_fst]
    exact verify_password_reset_token_generate _ _ { u with password := pw1 } _ _
      hany1 hid
  refine ⟨?_, ?_, ?_, ?_⟩
  · rw [hstep1]
  · rw [hstep1]
    simp [check_password, hfind1]
  · rw [hstep1]
    exact cacheGet_cacheDelete_self _ _
  · rw [hstep1]
    unfold reset_user_password
    rw [hv2]

/-- Fixtures for concrete evaluations. -/
def exampleUser : UserRec :=
  { id := 1, username := "alice", password := "oldpass",
    is_deleted := false, status := "active" }

/-- A one-row user table holding exampleUser. -/
def exampleDB : UserDB := [exampleUser]

/-- The reset token and cache produced for exampleUser at time 100. -/
def exampleReset : Token × Cache :=
  generate_password_reset_token exampleUser [] 100 "jti1"

/-- First consumption of the reset token. -/
def exampleFirstConsume : Bool × UserDB × Cache :=
  reset_user_password exampleDB exampleReset.2 exampleReset.1 "newpass" 100

/-- Second consumption of the very same reset token, on the state left by
the first consumption. -/
def exampleSecondConsume : Bool × UserDB × Cache :=
  reset_user_password exampleFirstConsume.2.1 exampleFirstConsume.2.2
    exampleReset.1 "newpass2" 100

/-- Claim C1 counterexample: on a concrete subject, the first consumption
of a reset token succeeds and deletes the Password-Reset Record, yet a
second consumption of the same token also succeeds (the claim says it must
fail). -/
theorem password_reset_single_use_counterexample :
    exampleFirstConsume.1 = true
    ∧ cacheGet exampleFirstConsume.2.2 (.password_reset 1) = none
    ∧ exampleSecondConsume.1 = true := by decide

/-- A subject used to instantiate the universally quantified theorems. -/
def wUser : UserRec :=
  { id := 1, username := "bob", password := "pw",
    is_deleted := false, status := "active" }

/-- A one-row user table holding wUser. -/
def wDB : UserDB := [wUser]

/-- The default configuration: 24 access-token hours, 7 refresh-token days. -/
def wSettings : Settings :=
  { JWT_EXPIRATION_HOURS := 24, JWT_REFRESH_EXPIRATION_DAYS := 7 }

/-- Signature-valid refresh-kind claims. -/
def wRefreshClaims : Claims :=
  { user_id := some 1, token_type := some "refresh", exp := some 1000,
    iat := 100, jti := some "J" }

/-- Signature-valid access-kind claims. -/
def wAccessClaims : Claims :=
  { user_id := some 1, token_type := some "access", exp := some 1000,
    iat := 100, jti := some "J" }

/-- Claims without an exp claim (remaining lifetime defaults to 0 - now). -/
def wNoExpClaims : Claims :=
  { user_id := some 1, token_type := some "refresh", exp := none,
    iat := 100, jti := some "J" }

/-- Claims whose user_id is the integer 0. -/
def wZeroClaims : Claims :=
  { user_id := some 0, token_type := some "access", exp := some 1000,
    iat := 100, jti := some "J" }

/-- A cache holding only a blacklist entry. -/
def wBlkCache : Cache :=
  [(.blacklist_token "x", { val := .flag true, timeout := 10 })]

/-- First issuance for wUser at time 100. -/
def wIssue1 : TokenPair × Cache := generate_tokens wSettings wUser [] 100 "a1" "r1"

/-- Second issuance for wUser at time 200, on the state left by the first. -/
def wIssue2 : TokenPair × Cache :=
  generate_tokens wSettings wUser wIssue1.2 200 "a2" "r2"

/-- Witness for the amended claim C1 at a concrete subject. -/
theorem password_reset_consume_not_single_use_witness :
    exampleFirstConsume.1 = true
    ∧ check_password exampleFirstConsume.2.1 exampleUser.id "newpass" = true
    ∧ cacheGet exampleFirstConsume.2.2 (.password_reset exampleUser.id) = none
    ∧ exampleSecondConsume.1 = true :=
  password_reset_consume_not_single_use exampleDB [] exampleUser 100 "jti1"
    "newpass" "newpass2" (by decide) (by decide) (by decide)

/-- Witness for claim C2 at a concrete subject and concrete times. -/
theorem only_latest_refresh_honored_witness :
    cacheGet wIssue2.2 (.refresh_token wUser.id) =
      some (.tok wIssue2.1.refresh_token)
    ∧ wIssue1.1.refresh_token ≠ wIssue2.1.refresh_token
    ∧ (refresh_access_token wSettings wDB wIssue2.2 wIssue1.1.refresh_token
        300 "n").1 = none
    ∧ ((refresh_access_token wSettings wDB wIssue2.2 wIssue2.1.refresh_token
        300 "n").1).isSome = true :=
  only_latest_refresh_honored wSettings wDB [] wUser 100 200 300
    "a1" "r1" "a2" "r2" "n" (by decide) (by decide) (by decide)
    (by decide) (by decide)

/-- Witness for claim C3 at a concrete subject. -/
theorem issue_verify_roundtrip_witness :
    verify_token wDB [] wIssue1.1.access_token 100 = some wUser.id
    ∧ jwtDecode (generate_token 42 ACCESS_TOKEN_TYPE 3600 100 "c1") 100 =
        .ok { user_id := some 42, token_type := some ACCESS_TOKEN_TYPE,
              exp := some (100 + 3600), iat := 100, jti := some "c1" } :=
  issue_verify_roundtrip wSettings wDB [] [] wUser 100 "a1" "r1" "c1"
    (by decide) (by decide) (by decide)

/-- Witness for claim C4 at concrete claims of each kind. -/
theorem token_kind_checked_witness :
    verify_token wDB [] (.signed wRefreshClaims true) 100 = none
    ∧ (refresh_access_token wSettings wDB [] (.signed wAccessClaims true)
        100 "J2").1 = none :=
  ⟨(token_kind_checked wSettings wDB [] wRefreshClaims 100 "J2").1 (by decide),
   (token_kind_checked wSettings wDB [] wAccessClaims 100 "J2").2 (by decide)⟩

/-- Witness for claim C5 at concrete times around the expiry boundary. -/
theorem expiry_boundary_witness :
    (jwtDecode (.signed wAccessClaims true) 1000 = .err .Expired ↔ 1000 ≤ 1000)
    ∧ jwtDecode (.signed wAccessClaims true) 500 = .ok wAccessClaims
    ∧ jwtDecode (generate_token 1 ACCESS_TOKEN_TYPE 0 100 "J") 100 = .err .Expired
    ∧ verify_token wDB [] (generate_token 1 ACCESS_TOKEN_TYPE 0 100 "J") 100 = none :=
  ⟨(expiry_boundary wAccessClaims 1000 1000 wDB [] 1 "J").1 (by decide),
   (expiry_boundary wAccessClaims 1000 500 wDB [] 1 "J").2.1 (by decide) (by decide),
   (expiry_boundary wAccessClaims 1000 100 wDB [] 1 "J").2.2.1,
   (expiry_boundary wAccessClaims 1000 100 wDB [] 1 "J").2.2.2⟩

/-- Witness for claim C6: a malformed token and a decodable token with
non-positive remaining lifetime both leave only the refresh-record
deletion. -/
theorem logout_always_succeeds_witness :
    logout_user [] 1 (some (.malformed "xx")) 100 =
      (true, cacheDelete [] (.refresh_token 1))
    ∧ logout_user [] 1 (some (.signed wNoExpClaims true)) 100 =
        (true, cacheDelete [] (.refresh_token 1)) :=
  ⟨(logout_always_succeeds [] 1 (some (.malformed "xx")) (.malformed "xx")
      100).2.2.1 .Malformed (by decide),
   (logout_always_succeeds [] 1 (some (.signed wNoExpClaims true))
      (.signed wNoExpClaims true) 100).2.2.2 wNoExpClaims (by decide) (by decide)⟩

/-- Witness for claim C7: the empty cache versus a cache holding only a
blacklist entry. -/
theorem blacklist_noninterference_witness :
    verify_token wDB [] (.signed wRefreshClaims true) 100 =
      verify_token wDB wBlkCache (.signed wRefreshClaims true) 100
    ∧ (refresh_access_token wSettings wDB [] (.signed wRefreshClaims true)
        100 "J2").1 =
      (refresh_access_token wSettings wDB wBlkCache
        (.signed wRefreshClaims true) 100 "J2").1 :=
  blacklist_noninterference wSettings wDB (.signed wRefreshClaims true) 100 "J2"
    [] wBlkCache
    (by
      intro k hk
      cases k with
      | refresh_token i => simp [wBlkCache, cacheGet]
      | blacklist_token jt => exact absurd rfl (hk jt)
      | password_reset i => simp [wBlkCache, cacheGet])

/-- Witness for claim C10 at claims whose user_id is the integer 0. -/
theorem falsy_user_id_never_authenticates_witness :
    verify_token wDB [] (.signed wZeroClaims true) 100 = none
    ∧ (refresh_access_token wSettings wDB [] (.signed wZeroClaims true)
        100 "J2").1 = none
    ∧ verify_password_reset_token wDB [] (.signed wZeroClaims true) 100 = none :=
  falsy_user_id_never_authenticates wSettings wDB [] wZeroClaims 100 "J2"
    (Or.inr (by decide))

end DjangoNinjaAuth
